import Mathlib

/-!
Shallow embedding of
`crates/uniffi-bindgen-react-native/src/bindings/react_native/gen_typescript/miscellany.rs`.

The Rust source invokes the macro `impl_code_type_for_miscellany!` twice:

  impl_code_type_for_miscellany!(TimestampCodeType, "java.time.Instant", "Timestamp");
  impl_code_type_for_miscellany!(DurationCodeType, "java.time.Duration", "Duration");

Each invocation expands to a field-less (unit) `pub struct $T;` together with
an `impl CodeType for $T` whose `type_label(&self, _ci: &ComponentInterface)`
returns the class-name literal (ignoring the `ComponentInterface` argument)
and whose `canonical_name(&self)` returns the canonical-name literal.  We
write the two expansions out directly as Lean definitions below.
-/

/-- Modelled from the spec: the Interface Model (`ComponentInterface`), an
immutable, already-validated collection of declarations produced by a front
end; its definition lives outside this repository snapshot (it comes from the
`uniffi_bindgen` crate).  The miscellany code types receive it by reference
and never inspect it, so an opaque bag of declaration names suffices. -/
structure ComponentInterface where
  declarations : List String

/-- Expansion of `impl_code_type_for_miscellany!(TimestampCodeType, ...)`:
`pub struct TimestampCodeType;`, a unit struct with no fields. -/
structure TimestampCodeType

/-- Expansion of `impl_code_type_for_miscellany!(DurationCodeType, ...)`:
`pub struct DurationCodeType;`, a unit struct with no fields. -/
structure DurationCodeType

namespace TimestampCodeType

/-- `fn type_label(&self, _ci: &ComponentInterface) -> String` from the
`CodeType` impl for `TimestampCodeType`: returns `"java.time.Instant"`,
ignoring the interface argument. -/
def type_label (_self : TimestampCodeType) (_ci : ComponentInterface) : String :=
  "java.time.Instant"

/-- `fn canonical_name(&self) -> String` from the `CodeType` impl for
`TimestampCodeType`: returns `"Timestamp"`. -/
def canonical_name (_self : TimestampCodeType) : String :=
  "Timestamp"

end TimestampCodeType

namespace DurationCodeType

/-- `fn type_label(&self, _ci: &ComponentInterface) -> String` from the
`CodeType` impl for `DurationCodeType`: returns `"java.time.Duration"`,
ignoring the interface argument. -/
def type_label (_self : DurationCodeType) (_ci : ComponentInterface) : String :=
  "java.time.Duration"

/-- `fn canonical_name(&self) -> String` from the `CodeType` impl for
`DurationCodeType`: returns `"Duration"`. -/
def canonical_name (_self : DurationCodeType) : String :=
  "Duration"

end DurationCodeType

/-- The fixed catalog of builtin miscellany ids implemented in
`miscellany.rs`: exactly the timestamp and duration entries. -/
inductive MiscellanyBuiltinId where
  | timestamp
  | duration

/-- Catalog lookup for the rendered type name: dispatches a builtin id to the
`type_label` method of its code type. -/
def miscellany_type_label (id : MiscellanyBuiltinId) (ci : ComponentInterface) : String :=
  match id with
  | .timestamp => TimestampCodeType.type_label ⟨⟩ ci
  | .duration => DurationCodeType.type_label ⟨⟩ ci

/-- Catalog lookup for the canonical name: dispatches a builtin id to the
`canonical_name` method of its code type. -/
def miscellany_canonical_name (id : MiscellanyBuiltinId) : String :=
  match id with
  | .timestamp => TimestampCodeType.canonical_name ⟨⟩
  | .duration => DurationCodeType.canonical_name ⟨⟩

/-- Modelled from the spec: the fixed tag set of primitive canonical names
(the primitive renderer is not part of this repository snapshot).  The spec
names `"Int32"`, `"String"`, `"Boolean"` as examples of primitive tags; we
include the full standard scalar family they belong to. -/
def primitive_tags : List String :=
  ["UInt8", "Int8", "UInt16", "Int16", "UInt32", "Int32", "UInt64", "Int64",
   "Float32", "Float64", "Boolean", "String", "Bytes"]

/-- A concrete sample interface value, used to exercise `type_label` at a
specific input. -/
def sample_ci : ComponentInterface :=
  ⟨["Foo", "Bar"]⟩

/-- C1: for every builtin id in the fixed miscellany catalog, lookup is total
(the Lean functions below are total by construction), both the rendered name
and the canonical name are non-empty strings, and the canonical name is
distinct from every primitive tag. -/
theorem miscellany_totality (id : MiscellanyBuiltinId) (ci : ComponentInterface) :
    0 < (miscellany_type_label id ci).length ∧
    0 < (miscellany_canonical_name id).length ∧
    miscellany_canonical_name id ∉ primitive_tags := by
  cases id
  case timestamp =>
    exact ⟨by show 0 < ("java.time.Instant" : String).length; decide,
      by decide, by decide⟩
  case duration =>
    exact ⟨by show 0 < ("java.time.Duration" : String).length; decide,
      by decide, by decide⟩

/-- C2: `canonical_name()` on `TimestampCodeType` returns exactly the string
`"Timestamp"`. -/
theorem timestamp_canonical_name_eq :
    TimestampCodeType.canonical_name ⟨⟩ = "Timestamp" :=
  rfl

/-- C3 counterexample: the hard-coded canonical name of the timestamp entry
is NOT equal to its rendered type label — `canonical_name()` returns
`"Timestamp"` while `type_label` returns `"java.time.Instant"` at the
concrete interface `sample_ci`. -/
theorem timestamp_canonical_ne_label_at_sample :
    ¬ TimestampCodeType.canonical_name ⟨⟩ =
        TimestampCodeType.type_label ⟨⟩ sample_ci := by
  decide

/-- C3 (amended): for each of `TimestampCodeType` and `DurationCodeType`, the
hard-coded canonical name differs from the rendered type label for every
`ComponentInterface`. -/
theorem miscellany_canonical_ne_rendered (ci : ComponentInterface) :
    TimestampCodeType.canonical_name ⟨⟩ ≠ TimestampCodeType.type_label ⟨⟩ ci ∧
    DurationCodeType.canonical_name ⟨⟩ ≠ DurationCodeType.type_label ⟨⟩ ci :=
  ⟨by show ("Timestamp" : String) ≠ "java.time.Instant"; decide,
    by show ("Duration" : String) ≠ "java.time.Duration"; decide⟩

/-- C4: the two structurally different miscellany descriptors have different
canonical names: `"Timestamp"` is not `"Duration"`. -/
theorem timestamp_duration_canonical_distinct :
    TimestampCodeType.canonical_name ⟨⟩ ≠ DurationCodeType.canonical_name ⟨⟩ := by
  decide

/-- C5: rendering and canonical naming are deterministic: performing the
`type_label` call any number of times on the same `ComponentInterface`
produces the same string each time, and likewise for `canonical_name`
(modelled as `n` repeated evaluations all equalling the single result). -/
theorem miscellany_deterministic (id : MiscellanyBuiltinId)
    (ci : ComponentInterface) (n : Nat) :
    (List.replicate n ci).map (miscellany_type_label id) =
      List.replicate n (miscellany_type_label id ci) ∧
    (List.replicate n id).map miscellany_canonical_name =
      List.replicate n (miscellany_canonical_name id) :=
  ⟨List.map_replicate, List.map_replicate⟩

/-- C6: miscellany output is not derived from the Interface Model: for every
builtin id, `type_label` returns the same string for any two
`ComponentInterface` values (the argument has no influence); and
`miscellany_canonical_name : MiscellanyBuiltinId → String` takes no interface
input at all, as its type shows. -/
theorem miscellany_independent_of_interface (id : MiscellanyBuiltinId)
    (ci1 ci2 : ComponentInterface) :
    miscellany_type_label id ci1 = miscellany_type_label id ci2 := by
  cases id <;> rfl

/-- C8: every miscellany canonical name is a bare identifier made only of
ASCII letters, while both rendered type labels contain a `.` separator. -/
theorem miscellany_canonical_bare_identifier (id : MiscellanyBuiltinId)
    (ci : ComponentInterface) :
    (miscellany_canonical_name id).data.all Char.isAlpha = true ∧
    Char.ofNat 46 ∈ (miscellany_type_label id ci).data := by
  cases id
  case timestamp =>
    exact ⟨by decide,
      by show Char.ofNat 46 ∈ ("java.time.Instant" : String).data; decide⟩
  case duration =>
    exact ⟨by decide,
      by show Char.ofNat 46 ∈ ("java.time.Duration" : String).data; decide⟩

/-- C9: the miscellany code types are stateless unit structs: any two values
of `TimestampCodeType` (and of `DurationCodeType`) are equal, so the methods
cannot depend on hidden per-value state; in this pure embedding the methods
return only a `String` and leave every input untouched. -/
theorem miscellany_stateless (a b : TimestampCodeType) (c d : DurationCodeType)
    (ci : ComponentInterface) :
    a = b ∧ c = d ∧
    TimestampCodeType.type_label a ci = TimestampCodeType.type_label b ci ∧
    TimestampCodeType.canonical_name a = TimestampCodeType.canonical_name b ∧
    DurationCodeType.type_label c ci = DurationCodeType.type_label d ci ∧
    DurationCodeType.canonical_name c = DurationCodeType.canonical_name d := by
  cases a; cases b; cases c; cases d
  exact ⟨rfl, rfl, rfl, rfl, rfl, rfl⟩

/-- C10: the concrete catalog values: the timestamp entry renders as
`"java.time.Instant"`, the duration entry renders as `"java.time.Duration"`
(for every interface value), and the duration canonical name is exactly
`"Duration"`. -/
theorem miscellany_concrete_values (ci : ComponentInterface) :
    TimestampCodeType.type_label ⟨⟩ ci = "java.time.Instant" ∧
    DurationCodeType.type_label ⟨⟩ ci = "java.time.Duration" ∧
    DurationCodeType.canonical_name ⟨⟩ = "Duration" :=
  ⟨rfl, rfl, rfl⟩
